import Mathlib

/-!
Verification development for the geobeam repository.

The development shallowly embeds the parts of the code that the checked
properties concern:

* `generate_route.py` — the route upsampling engine (`TimedRoute.upsample_route`).
  Python floats are modelled as exact rationals (`ℚ`), Python `int()` as
  truncation toward zero, and Python exceptions (`ZeroDivisionError`,
  `IndexError`) as an `Except` result.
* `gps_utils.py` — the geodetic→ECEF conversion `lla_to_xyz`, over `ℝ`.
* `simulations.py` — the simulation playlist controller.  The stateful
  controller is embedded as a trace semantics: running it on a script of
  loop inputs (the per-iteration keyboard key and the "is the current
  process still running" observation) produces the list of
  start/end/log actions it performs.  `Simulation.end_simulation` is
  embedded as a fuel-indexed event-trace function driven by an oracle of
  poll results, and `SimulationSet.log_simulation` as a function from the
  run kind, the elapsed time and the track-file contents to the list of
  written log lines (with a flag recording whether the write completed or
  aborted with `StopIteration`).
-/

/-- Python `int()` applied to a real (modelled rational) value:
truncation toward zero. -/
def pyInt (q : ℚ) : ℤ := if 0 ≤ q then ⌊q⌋ else ⌈q⌉

/-- The Python exceptions the embedded code can raise. -/
inductive PyError
  | zeroDivisionError
  | indexError
  deriving DecidableEq, Repr

/-! ## `generate_route.py` -/

/-- `generate_route.Location`: latitude/longitude/altitude in decimal degrees
and meters, plus the ECEF coordinates set by `add_XYZ` (absent until set;
their numeric values are irrelevant to the upsampling claims, so the
conversion function is passed in abstractly below). -/
structure Location where
  latitude : ℚ
  longitude : ℚ
  altitude : ℚ
  xyz : Option (ℚ × ℚ × ℚ) := none
  deriving DecidableEq, Repr

/-- The mutable state of a `TimedRoute` that `upsample_route` reads and
writes: the point list, the `distances` and `durations` attributes set by
`create_route`, the `duration` attribute (which does not exist until some
code assigns it — `None` models "attribute absent"), and the speed and
frequency parameters. -/
structure TimedRouteState where
  route : List Location
  distances : List ℚ
  durations : List ℚ
  duration : Option (List ℚ) := none
  speed : ℚ
  frequency : ℚ
  deriving DecidableEq, Repr

/-- One segment step of the upsampling loop body
(`generate_route.py`, the `for i in range(len(self.distances))` loop):
given `points_per_meter`, the segment length `distance` and the two segment
endpoints, compute `points_needed = int(distance*points_per_meter)-1` and
the `points_needed` linearly interpolated points (each given its ECEF
coordinates through `xyzOf`, as `new_point.add_XYZ()` does).  Dividing the
coordinate deltas by `points_needed == 0` raises `ZeroDivisionError`. -/
def upsampleSegment (xyzOf : ℚ → ℚ → ℚ → ℚ × ℚ × ℚ) (points_per_meter : ℚ)
    (distance : ℚ) (start_point end_point : Location) :
    Except PyError (List Location) :=
  let points_needed : ℤ := pyInt (distance * points_per_meter) - 1
  if points_needed = 0 then
    .error .zeroDivisionError
  else
    let latitude_delta := (end_point.latitude - start_point.latitude) / points_needed
    let longitude_delta := (end_point.longitude - start_point.longitude) / points_needed
    let altitude_delta := (end_point.altitude - start_point.altitude) / points_needed
    .ok <| (List.range points_needed.toNat).map fun (j : ℕ) =>
      { latitude := start_point.latitude + latitude_delta * (j : ℚ)
        longitude := start_point.longitude + longitude_delta * (j : ℚ)
        altitude := start_point.altitude + altitude_delta * (j : ℚ)
        xyz := some (xyzOf (start_point.latitude + latitude_delta * (j : ℚ))
                           (start_point.longitude + longitude_delta * (j : ℚ))
                           (start_point.altitude + altitude_delta * (j : ℚ))) }

/-- The upsampling loop over all segments: `route[i]`/`route[i+1]` walks the
point list alongside the distance list; running out of route points models
the `IndexError` Python would raise on `self.route[i+1]`. -/
def upsampleSegments (xyzOf : ℚ → ℚ → ℚ → ℚ × ℚ × ℚ) (points_per_meter : ℚ) :
    List ℚ → List Location → Except PyError (List Location)
  | [], _ => .ok []
  | distance :: rest, start_point :: end_point :: tail => do
    let pts ← upsampleSegment xyzOf points_per_meter distance start_point end_point
    let more ← upsampleSegments xyzOf points_per_meter rest (end_point :: tail)
    return pts ++ more
  | _ :: _, _ => .error .indexError

/-- `TimedRoute.upsample_route` (generate_route.py).  Mirrors the source:
`points_per_meter = frequency/speed` (a `ZeroDivisionError` when `speed` is
zero), ten priming copies of `route[0]` (an `IndexError` on an empty
route), the per-segment interpolation loop, the final `route[-1]` appended
once, and then the rebinding of the attributes — the uniform per-sample
durations are assigned to the attribute `duration` (sic, as in the source)
while the `durations` attribute is left untouched, and `distances` is
replaced by the uniform list of `1/points_per_meter`. -/
def upsample_route (xyzOf : ℚ → ℚ → ℚ → ℚ × ℚ × ℚ) (s : TimedRouteState) :
    Except PyError TimedRouteState :=
  if s.speed = 0 then .error .zeroDivisionError else
  let points_per_meter := s.frequency / s.speed
  match s.route.head? with
  | none => .error .indexError
  | some first =>
    match upsampleSegments xyzOf points_per_meter s.distances s.route with
    | .error e => .error e
    | .ok pts =>
      match s.route.getLast? with
      | none => .error .indexError
      | some last =>
        let new_route := List.replicate 10 first ++ pts ++ [last]
        if s.frequency = 0 then .error .zeroDivisionError
        else if points_per_meter = 0 then .error .zeroDivisionError
        else .ok { s with
          route := new_route,
          duration := some (List.replicate (new_route.length - 1) (1 / s.frequency)),
          distances := List.replicate (new_route.length - 1) (1 / points_per_meter) }

/-- A fixed concrete stand-in for the float ECEF conversion, used when the
upsampler is evaluated on concrete inputs (the claims about the upsampler
do not depend on the converted coordinates). -/
def xyzZero : ℚ → ℚ → ℚ → ℚ × ℚ × ℚ := fun _ _ _ => (0, 0, 0)

/-- A three-waypoint route with the segment distances of the spec's worked
scenario (`distances [5,10]`, speed 10, frequency 10), with pre-upsampling
`durations` as set by `create_route`. -/
def scenarioState : TimedRouteState :=
  { route := [{ latitude := 0, longitude := 0, altitude := 0 },
              { latitude := 1, longitude := 1, altitude := 1 },
              { latitude := 2, longitude := 2, altitude := 2 }],
    distances := [5, 10], durations := [3, 4], speed := 10, frequency := 10 }

/-- A route with a single zero-length segment (`d_0 = 0`). -/
def zeroSegState : TimedRouteState :=
  { route := [{ latitude := 0, longitude := 0, altitude := 0 },
              { latitude := 0, longitude := 0, altitude := 0 }],
    distances := [0], durations := [1], speed := 1, frequency := 1 }

/-- A route with a single segment whose `points_needed` comes out `0`
(`int(1.5*1) - 1 = 0`). -/
def shortSegState : TimedRouteState :=
  { route := [{ latitude := 0, longitude := 0, altitude := 0 },
              { latitude := 1, longitude := 1, altitude := 1 }],
    distances := [3/2], durations := [1], speed := 1, frequency := 1 }

/-- A two-waypoint route with one segment of length 2 at unit speed and
frequency (`points_needed = 1`), with `durations` as set by
`create_route`. -/
def smallState : TimedRouteState :=
  { route := [{ latitude := 0, longitude := 0, altitude := 0 },
              { latitude := 1, longitude := 1, altitude := 1 }],
    distances := [2], durations := [7], speed := 1, frequency := 1 }

/-! ## `simulations.py` — the playlist controller

The controller is embedded as a trace semantics.  Each loop iteration of
`SimulationSet.run_simulations` observes whether the current child process
is still running and reads at most one key press; the script of these
observations drives the loop.  The actions the controller performs on the
simulations — `run_simulation`, `end_simulation`, `log_simulation` — are
recorded as a trace. -/

/-- The keys `run_simulations` reacts to (`n`/`p`/`q`, upper or lower
case). -/
inductive Key
  | next
  | prev
  | quit
  deriving DecidableEq, Repr

/-- What one iteration of the `run_simulations` loop observes:
`current_simulation.is_running()` and `key_pressed()`. -/
structure LoopInput where
  running : Bool
  key : Option Key
  deriving DecidableEq, Repr

/-- The externally visible actions of the controller on its simulations,
by playlist index. -/
inductive Act
  | startSim (i : ℕ)  -- `simulations[i].run_simulation()`
  | endSim (i : ℕ)    -- `simulations[i].end_simulation()`
  | logSim (i : ℕ)    -- `self.log_simulation()` while `i` is current
  deriving DecidableEq, Repr

/-- The mutable state of a `SimulationSet`: the number of queued
simulations and `current_simulation_index` (`none` models Python's
`None`). -/
structure SetState where
  numSimulations : ℕ
  currentIndex : Option ℕ
  deriving DecidableEq, Repr

/-- `SimulationSet.switch_simulation(new_simulation_index)`: on a valid
index, end and log the current simulation if there is one, start the new
one and update the index; on an out-of-range index only print a notice. -/
def switch_simulation (s : SetState) (newIndex : ℤ) : SetState × List Act :=
  if newIndex < (s.numSimulations : ℤ) ∧ 0 ≤ newIndex then
    match s.currentIndex with
    | some c => ({ s with currentIndex := some newIndex.toNat },
                 [.endSim c, .logSim c, .startSim newIndex.toNat])
    | none => ({ s with currentIndex := some newIndex.toNat },
               [.startSim newIndex.toNat])
  else (s, [])

/-- The `while self.current_simulation_index < len(self.simulations)` loop
of `run_simulations`, driven by the script of loop observations.  Returns
the trace of actions and whether the loop finished (reached `break`); an
exhausted script or the `TypeError` Python raises when the index is `None`
stops the trace with the flag `false`. -/
def run_simulations_loop : SetState → List LoopInput → List Act × Bool
  | _, [] => ([], false)
  | s, input :: rest =>
    match s.currentIndex with
    | none => ([], false)
    | some c =>
      if c < s.numSimulations then
        if ¬input.running ∧ s.numSimulations ≤ c + 1 then
          ([.endSim c, .logSim c], true)
        else if input.key = some Key.quit then
          ([.endSim c, .logSim c], true)
        else if input.key = some Key.next ∨ ¬input.running then
          let res := switch_simulation s ((c : ℤ) + 1)
          let more := run_simulations_loop res.1 rest
          (res.2 ++ more.1, more.2)
        else if input.key = some Key.prev then
          let res := switch_simulation s ((c : ℤ) - 1)
          let more := run_simulations_loop res.1 rest
          (res.2 ++ more.1, more.2)
        else
          run_simulations_loop s rest
      else ([], true)

/-- `SimulationSet.run_simulations` on a playlist of `n` simulations:
`switch_simulation(0)` and then the interactive loop. -/
def run_simulations (n : ℕ) (script : List LoopInput) : List Act × Bool :=
  let first := switch_simulation { numSimulations := n, currentIndex := none } 0
  let loop := run_simulations_loop first.1 script
  (first.2 ++ loop.1, loop.2)

/-- Scans a trace and checks that no simulation is started again after it
has been ended: the accumulator collects the indices already ended. -/
def checkNoRestart : List Act → List ℕ → Bool
  | [], _ => true
  | .startSim i :: rest, ended => !(ended.contains i) && checkNoRestart rest ended
  | .endSim i :: rest, ended => checkNoRestart rest (i :: ended)
  | .logSim _ :: rest, ended => checkNoRestart rest ended

/-- Scans a trace and checks that at every instant at most one simulation
is running (started and not yet ended): the accumulator holds the indices
currently running. -/
def checkAtMostOneRunning : List Act → List ℕ → Bool
  | [], _ => true
  | .startSim i :: rest, rs =>
    decide ((i :: rs).length ≤ 1) && checkAtMostOneRunning rest (i :: rs)
  | .endSim i :: rest, rs => checkAtMostOneRunning rest (rs.erase i)
  | .logSim _ :: rest, rs => checkAtMostOneRunning rest rs

/-- The indices already ended after processing a trace (the accumulator
evolution of `checkNoRestart`). -/
def endedAfter : List Act → List ℕ → List ℕ
  | [], e => e
  | .endSim i :: rest, e => endedAfter rest (i :: e)
  | .startSim _ :: rest, e => endedAfter rest e
  | .logSim _ :: rest, e => endedAfter rest e

/-- The indices still running after processing a trace (the accumulator
evolution of `checkAtMostOneRunning`). -/
def runningAfter : List Act → List ℕ → List ℕ
  | [], rs => rs
  | .startSim i :: rest, rs => runningAfter rest (i :: rs)
  | .endSim i :: rest, rs => runningAfter rest (rs.erase i)
  | .logSim _ :: rest, rs => runningAfter rest rs

/-- A script pressing Next once and then Prev once, the current process
reporting itself running throughout. -/
def nextPrevScript : List LoopInput :=
  [{ running := true, key := some Key.next },
   { running := true, key := some Key.prev }]

/-! ## `simulations.py` — `log_simulation` -/

/-- One written line of a log record: the simulation's textual
representation, the `Start Time:` line, one verbatim track-file line, or
the `End Time:` line. -/
inductive LogLine
  | reprLine
  | startTimeLine
  | trackLine (s : String)
  | endTimeLine
  deriving DecidableEq, Repr

/-- The `for _ in range(lines_to_read): logfile.write(next(route_file))`
loop: writes track lines one by one from the front of the file; if the
file runs out first, `next` raises `StopIteration` (flag `false`) and the
lines already written stay written. -/
def readTrackLines : ℕ → List String → List LogLine × Bool
  | 0, _ => ([], true)
  | _ + 1, [] => ([], false)
  | n + 1, line :: rest =>
    let res := readTrackLines n rest
    (.trackLine line :: res.1, res.2)

/-- `SimulationSet.log_simulation`, as the list of lines it appends to the
log sink.  `total_time` is `(end_time-start_time).total_seconds()` in
seconds, `track` the contents of the run's track file.  For a Dynamic run
it writes the representation line, the `Start Time` line,
`int(total_time*10)` track lines, and the `End Time` line; the flag is
`false` when the copy loop aborts with an uncaught `StopIteration`, in
which case the `End Time` line is never written. -/
def log_simulation (isDynamic : Bool) (total_time : ℚ) (track : List String) :
    List LogLine × Bool :=
  let pre := [LogLine.reprLine, LogLine.startTimeLine]
  if isDynamic then
    let lines_to_read := pyInt (total_time * 10)
    let res := readTrackLines lines_to_read.toNat track
    if res.2 then (pre ++ res.1 ++ [LogLine.endTimeLine], true)
    else (pre ++ res.1, false)
  else (pre ++ [LogLine.endTimeLine], true)

/-! ## `simulations.py` — `Simulation.end_simulation` -/

/-- The observable events of `Simulation.end_simulation`:
`process.poll()`, `end_time = datetime.datetime.utcnow()`,
`process.communicate(input="q")`, `time.sleep(ONE_SEC)`,
`process.terminate()`, `process.kill()`, and `process = None`. -/
inductive EndEvent
  | pollExit
  | recordEndTime
  | sendQuit
  | sleepSec
  | terminateProc
  | killProc
  | releaseProc
  deriving DecidableEq, Repr

/-- The `while self.process.poll() is None` loop of `end_simulation`,
driven by the oracle `polls` (`polls k = true` means the `k`-th poll sees
an exited process), with fuel bounding the number of iterations.  Each
iteration records `end_time`, sends the quit signal, sleeps, then checks
and escalates to `terminate` and to `kill`, each with its own sleep, with
a fresh poll before each escalation; when the loop condition finally sees
an exited process, the `while`'s `else` records `end_time` once more and
the handle is released. -/
def end_simulation_go (polls : ℕ → Bool) : ℕ → ℕ → Option (List EndEvent)
  | 0, _ => none
  | fuel + 1, k =>
    if polls k then
      some [.pollExit, .recordEndTime, .releaseProc]
    else
      let afterQuit : List EndEvent :=
        if polls (k + 1) then [] else [.terminateProc, .sleepSec]
      let afterTerminate : List EndEvent :=
        if polls (k + 2) then [] else [.killProc, .sleepSec]
      match end_simulation_go polls fuel (k + 3) with
      | none => none
      | some evs =>
        some ([.pollExit, .recordEndTime, .sendQuit, .sleepSec, .pollExit] ++
          afterQuit ++ [.pollExit] ++ afterTerminate ++ evs)

/-- `Simulation.end_simulation` as its event trace, from the first poll. -/
def end_simulation (polls : ℕ → Bool) (fuel : ℕ) : Option (List EndEvent) :=
  end_simulation_go polls fuel 0

/-- One iteration of the escalating shutdown, as the specification
describes it: a quit signal followed by a wait and an exit poll, then — if
still alive — terminate followed by a wait and an exit poll, then — if
still alive — kill followed by a wait (the next poll is the following
loop check). -/
def shutdownIterationBlock (aliveAfterQuit aliveAfterTerminate : Bool) :
    List EndEvent :=
  [.pollExit, .recordEndTime, .sendQuit, .sleepSec, .pollExit] ++
    (if aliveAfterQuit then [.terminateProc, .sleepSec] else []) ++
    ([.pollExit]) ++
    (if aliveAfterTerminate then [.killProc, .sleepSec] else [])

/-- `m` consecutive shutdown iterations starting at poll index `k`. -/
def shutdownBlocks (polls : ℕ → Bool) : ℕ → ℕ → List EndEvent
  | _, 0 => []
  | k, m + 1 =>
    shutdownIterationBlock (!polls (k + 1)) (!polls (k + 2)) ++
      shutdownBlocks polls (k + 3) m

/-- A poll oracle for a process that quits right after the "q" signal. -/
def quitsAfterQ : ℕ → Bool := fun k => decide (1 ≤ k)

/-! ## `gps_utils.py` -/

/-- WGS84 semi-major axis, from `gps_utils.py`. -/
noncomputable def WGS84_EARTH_RADIUS : ℝ := 6378137.0

/-- WGS84 eccentricity, from `gps_utils.py`. -/
noncomputable def WGS84_ECCENTRICITY : ℝ := 0.0818191908426

/-- `gps_utils.lla_to_xyz`: geodetic to ECEF conversion over the reals.
The degree→radian factor is the source's literal `3.14159265358979/180`. -/
noncomputable def lla_to_xyz (latitude longitude altitude : ℝ) : ℝ × ℝ × ℝ :=
  let eccentricity_sq := WGS84_ECCENTRICITY ^ 2
  let latitude_radians := latitude * (3.14159265358979 / 180)
  let longitude_radians := longitude * (3.14159265358979 / 180)
  let cos_latitude := Real.cos latitude_radians
  let sin_latitude := Real.sin latitude_radians
  let cos_longitude := Real.cos longitude_radians
  let sin_longitude := Real.sin longitude_radians
  let n_vector := WGS84_EARTH_RADIUS /
    Real.sqrt (1.0 - (WGS84_ECCENTRICITY * sin_latitude) ^ 2)
  ((n_vector + altitude) * cos_latitude * cos_longitude,
   (n_vector + altitude) * cos_latitude * sin_longitude,
   ((1.0 - eccentricity_sq) * n_vector + altitude) * sin_latitude)

/-- The conversion formula exactly as the claim states it: prime-vertical
radius `N = a/sqrt(1 - e²·sin²(lat))` with the angles converted from
degrees to radians by multiplying with `π/180`. -/
noncomputable def claimToECEF (latitude longitude altitude : ℝ) : ℝ × ℝ × ℝ :=
  let lat_rad := latitude * (Real.pi / 180)
  let lon_rad := longitude * (Real.pi / 180)
  let n := WGS84_EARTH_RADIUS /
    Real.sqrt (1 - WGS84_ECCENTRICITY ^ 2 * Real.sin lat_rad ^ 2)
  ((n + altitude) * Real.cos lat_rad * Real.cos lon_rad,
   (n + altitude) * Real.cos lat_rad * Real.sin lon_rad,
   ((1 - WGS84_ECCENTRICITY ^ 2) * n + altitude) * Real.sin lat_rad)

/-- The same formula with the degree→radian factor the source actually
uses, `3.14159265358979/180`. -/
noncomputable def sourceAngleToECEF (latitude longitude altitude : ℝ) : ℝ × ℝ × ℝ :=
  let lat_rad := latitude * (3.14159265358979 / 180)
  let lon_rad := longitude * (3.14159265358979 / 180)
  let n := WGS84_EARTH_RADIUS /
    Real.sqrt (1 - WGS84_ECCENTRICITY ^ 2 * Real.sin lat_rad ^ 2)
  ((n + altitude) * Real.cos lat_rad * Real.cos lon_rad,
   (n + altitude) * Real.cos lat_rad * Real.sin lon_rad,
   ((1 - WGS84_ECCENTRICITY ^ 2) * n + altitude) * Real.sin lat_rad)

/-! ## Lemmas and theorems -/

lemma except_ok_bind {ε α β : Type} (a : α) (f : α → Except ε β) :
    (Except.ok a : Except ε α) >>= f = f a := rfl

lemma except_error_bind {ε α β : Type} (x : ε) (f : α → Except ε β) :
    (Except.error x : Except ε α) >>= f = .error x := rfl

lemma pyInt_of_nonneg {q : ℚ} (h : 0 ≤ q) : pyInt q = ⌊q⌋ := if_pos h

lemma pyInt_eq_floor_of_two_le {q : ℚ} (h : 2 ≤ pyInt q) : pyInt q = ⌊q⌋ := by
  rcases le_or_lt 0 q with hq | hq
  · exact pyInt_of_nonneg hq
  · exfalso
    have heq : pyInt q = ⌈q⌉ := if_neg (not_le.mpr hq)
    have hc : (⌈q⌉ : ℤ) ≤ 0 := Int.ceil_le.mpr (by exact_mod_cast hq.le)
    omega

/-- Length of the interpolated point list of one segment, when the division
does not fault. -/
lemma upsampleSegment_length (xyzOf : ℚ → ℚ → ℚ → ℚ × ℚ × ℚ) (ppm d : ℚ)
    (sp ep : Location) (h : pyInt (d * ppm) - 1 ≠ 0) :
    ∃ pts, upsampleSegment xyzOf ppm d sp ep = .ok pts ∧
      pts.length = (pyInt (d * ppm) - 1).toNat := by
  simp only [upsampleSegment]
  rw [if_neg h]
  exact ⟨_, rfl, by rw [List.length_map, List.length_range]⟩

/-- The segment loop succeeds and its output length is the sum of the
per-segment `points_needed` counts, whenever no segment faults and the
point list is long enough. -/
lemma upsampleSegments_length (xyzOf : ℚ → ℚ → ℚ → ℚ × ℚ × ℚ) (ppm : ℚ) :
    ∀ (ds : List ℚ) (route : List Location),
      (∀ d ∈ ds, pyInt (d * ppm) - 1 ≠ 0) → ds.length < route.length →
      ∃ pts, upsampleSegments xyzOf ppm ds route = .ok pts ∧
        pts.length = (ds.map fun d => (pyInt (d * ppm) - 1).toNat).sum
  | [], route, _, _ => ⟨[], rfl, rfl⟩
  | d :: rest, [], _, hlen => by simp at hlen
  | d :: rest, [p], _, hlen => by
    simp only [List.length_cons, List.length_nil] at hlen
    omega
  | d :: rest, p0 :: p1 :: tail, hok, hlen => by
    obtain ⟨pts, hpts, hptslen⟩ :=
      upsampleSegment_length xyzOf ppm d p0 p1 (hok d (by simp))
    obtain ⟨more, hmore, hmorelen⟩ :=
      upsampleSegments_length xyzOf ppm rest (p1 :: tail)
        (fun x hx => hok x (by simp [hx]))
        (by simp only [List.length_cons] at hlen ⊢; omega)
    have heq : upsampleSegments xyzOf ppm (d :: rest) (p0 :: p1 :: tail) =
        (upsampleSegment xyzOf ppm d p0 p1).bind fun pts =>
          (upsampleSegments xyzOf ppm rest (p1 :: tail)).bind fun more =>
            Except.ok (pts ++ more) := rfl
    refine ⟨pts ++ more, ?_, ?_⟩
    · rw [heq, hpts, hmore]; exact rfl
    · simp [hptslen, hmorelen]

lemma pointsNeeded_toNat_sum (ppm : ℚ) : ∀ ds : List ℚ,
    (∀ d ∈ ds, 1 ≤ pyInt (d * ppm) - 1) →
    (((ds.map fun d => (pyInt (d * ppm) - 1).toNat).sum : ℕ) : ℤ) =
      (ds.map fun d => ⌊d * ppm⌋ - 1).sum
  | [], _ => by simp
  | d :: rest, h => by
    have h1 := h d (by simp)
    have hfloor : pyInt (d * ppm) = ⌊d * ppm⌋ :=
      pyInt_eq_floor_of_two_le (by omega)
    have ih := pointsNeeded_toNat_sum ppm rest (fun x hx => h x (by simp [hx]))
    rw [List.map_cons, List.sum_cons, List.map_cons, List.sum_cons, Nat.cast_add,
        Int.toNat_of_nonneg (by omega), ih, hfloor]

/-- Claim C1: for every route whose segment distances are `d_0..d_{n-1}`,
every speed > 0 and frequency > 0 such that each segment yields at least
one needed point, `upsample_route` succeeds and the upsampled route has
exactly `10 + Σ_i (⌊d_i·frequency/speed⌋ - 1) + 1` points: ten priming
copies of the first point, the interpolated points of every segment, and
the final original point appended once. -/
theorem upsample_route_point_count (xyzOf : ℚ → ℚ → ℚ → ℚ × ℚ × ℚ)
    (s : TimedRouteState)
    (hspeed : 0 < s.speed) (hfreq : 0 < s.frequency)
    (hroute : s.route.length = s.distances.length + 1)
    (hseg : ∀ d ∈ s.distances, 1 ≤ pyInt (d * (s.frequency / s.speed)) - 1) :
    ∃ s', upsample_route xyzOf s = .ok s' ∧
      (s'.route.length : ℤ) =
        10 + ((s.distances.map fun d => ⌊d * s.frequency / s.speed⌋ - 1).sum) + 1 := by
  have hs0 : s.speed ≠ 0 := ne_of_gt hspeed
  have hf0 : s.frequency ≠ 0 := ne_of_gt hfreq
  have hppm0 : s.frequency / s.speed ≠ 0 := div_ne_zero hf0 hs0
  have hrne : s.route ≠ [] := by
    intro h; rw [h] at hroute; simp at hroute
  obtain ⟨first, hhead⟩ : ∃ a, s.route.head? = some a := by
    cases hr : s.route with
    | nil => exact absurd hr hrne
    | cons a t => exact ⟨a, rfl⟩
  obtain ⟨last, hlast⟩ : ∃ a, s.route.getLast? = some a :=
    Option.isSome_iff_exists.mp (List.getLast?_isSome.mpr hrne)
  have hok : ∀ d ∈ s.distances, pyInt (d * (s.frequency / s.speed)) - 1 ≠ 0 :=
    fun d hd => by have := hseg d hd; omega
  obtain ⟨pts, hpts, hptslen⟩ :=
    upsampleSegments_length xyzOf (s.frequency / s.speed) s.distances s.route hok
      (by omega)
  have hmain : upsample_route xyzOf s = .ok { s with
      route := List.replicate 10 first ++ pts ++ [last],
      duration := some (List.replicate
        ((List.replicate 10 first ++ pts ++ [last]).length - 1) (1 / s.frequency)),
      distances := List.replicate
        ((List.replicate 10 first ++ pts ++ [last]).length - 1)
        (1 / (s.frequency / s.speed)) } := by
    simp only [upsample_route, if_neg hs0, hhead, hpts, hlast, if_neg hf0, if_neg hppm0]
  refine ⟨_, hmain, ?_⟩
  simp only [List.length_append, List.length_replicate, List.length_cons,
    List.length_nil, hptslen, mul_div_assoc]
  rw [show (10 : ℕ) +
        ((s.distances.map fun d => (pyInt (d * (s.frequency / s.speed)) - 1).toNat).sum) +
        (0 + 1) =
      10 + ((s.distances.map fun d =>
        (pyInt (d * (s.frequency / s.speed)) - 1).toNat).sum) + 1 by omega]
  rw [Nat.cast_add, Nat.cast_add,
      pointsNeeded_toNat_sum (s.frequency / s.speed) s.distances hseg]
  norm_num

/-- Witness for C1 at the spec's worked scenario: distances `[5,10]`,
speed 10, frequency 10, so `points_needed = [4,9]` and the total point
count is `10 + 4 + 9 + 1 = 24`. -/
theorem upsample_route_point_count_witness :
    (0 : ℚ) < scenarioState.speed ∧ (0 : ℚ) < scenarioState.frequency ∧
    scenarioState.route.length = scenarioState.distances.length + 1 ∧
    (∀ d ∈ scenarioState.distances,
      1 ≤ pyInt (d * (scenarioState.frequency / scenarioState.speed)) - 1) ∧
    ∃ s', upsample_route xyzZero scenarioState = .ok s' ∧
      (s'.route.length : ℤ) = 10 + ((scenarioState.distances.map fun d =>
        ⌊d * scenarioState.frequency / scenarioState.speed⌋ - 1).sum) + 1 :=
  ⟨by norm_num [scenarioState], by norm_num [scenarioState],
   by norm_num [scenarioState], by norm_num [scenarioState, pyInt],
   upsample_route_point_count xyzZero scenarioState (by norm_num [scenarioState])
     (by norm_num [scenarioState]) (by norm_num [scenarioState])
     (by norm_num [scenarioState, pyInt])⟩

/-- Claim C2 (the code, evaluated at the failing inputs): on a segment
with `points_needed = 0` (distance 1.5 at speed 1, frequency 1) the
upsampler raises `ZeroDivisionError` — there is no `InvalidSegmentError`
anywhere in the source — and on a zero-length segment
(`points_needed = -1`) it raises nothing at all and returns an 11-point
route. -/
theorem upsample_route_no_invalid_segment_guard :
    upsample_route xyzZero shortSegState = .error .zeroDivisionError ∧
    (upsample_route xyzZero zeroSegState).isOk = true ∧
    (upsample_route xyzZero zeroSegState).toOption.map
      (fun s' => s'.route.length) = some 11 := by
  refine ⟨?_, ?_, ?_⟩
  · norm_num [upsample_route, upsampleSegments, upsampleSegment, pyInt, shortSegState,
      except_ok_bind, except_error_bind]
  · norm_num [upsample_route, upsampleSegments, upsampleSegment, pyInt, zeroSegState,
      except_ok_bind, except_error_bind, Except.isOk, Except.toBool]
  · norm_num [upsample_route, upsampleSegments, upsampleSegment, pyInt, zeroSegState,
      except_ok_bind, except_error_bind, Except.toOption]
    decide

/-- Claim C3 (the code, evaluated at a valid input): after upsampling,
`distances` is indeed replaced by the uniform `speed/frequency` list of
length `len(new_route)-1`, but the uniform `1/frequency` list is assigned
to a new attribute `duration`, while `durations` keeps its stale
pre-upsampling value, whose length no longer matches `len(route)-1`. -/
theorem upsample_route_duration_typo :
    ((upsample_route xyzZero smallState).toOption.map
      TimedRouteState.durations = some [7]) ∧
    ((upsample_route xyzZero smallState).toOption.map
      TimedRouteState.duration = some (some (List.replicate 11 (1 / smallState.frequency)))) ∧
    ((upsample_route xyzZero smallState).toOption.map
      TimedRouteState.distances = some (List.replicate 11 (smallState.speed / smallState.frequency))) ∧
    ((upsample_route xyzZero smallState).toOption.map
      (fun s' => s'.durations.length == s'.route.length - 1) = some false) := by
  norm_num [upsample_route, upsampleSegments, upsampleSegment, pyInt, smallState,
    except_ok_bind, except_error_bind, Except.toOption, List.replicate]

/-- Claim C6: for every playlist state, `switch_simulation` with an
out-of-range index (negative or at least the playlist length) is a no-op:
the state — in particular `current_simulation_index` — is unchanged and no
run is ended, started or logged. -/
theorem switch_simulation_out_of_range (s : SetState) (newIndex : ℤ)
    (h : newIndex < 0 ∨ (s.numSimulations : ℤ) ≤ newIndex) :
    switch_simulation s newIndex = (s, []) := by
  unfold switch_simulation
  rw [if_neg]
  rintro ⟨h1, h2⟩
  rcases h with h | h <;> omega

lemma checkNoRestart_append : ∀ (a b : List Act) (ended : List ℕ),
    checkNoRestart (a ++ b) ended =
      (checkNoRestart a ended && checkNoRestart b (endedAfter a ended))
  | [], b, e => by simp [checkNoRestart, endedAfter]
  | .startSim i :: rest, b, e => by
    simp [checkNoRestart, endedAfter, checkNoRestart_append rest b e, Bool.and_assoc]
  | .endSim i :: rest, b, e => by
    simp [checkNoRestart, endedAfter, checkNoRestart_append rest b (i :: e)]
  | .logSim i :: rest, b, e => by
    simp [checkNoRestart, endedAfter, checkNoRestart_append rest b e]

lemma run_simulations_loop_no_restart :
    ∀ (script : List LoopInput) (s : SetState) (c : ℕ) (ended : List ℕ),
      (∀ inp ∈ script, inp.key ≠ some Key.prev) →
      s.currentIndex = some c →
      (∀ j ∈ ended, j ≤ c) →
      checkNoRestart (run_simulations_loop s script).1 ended = true
  | [], s, c, ended, _, _, _ => by simp [run_simulations_loop, checkNoRestart]
  | inp :: rest, s, c, ended, hnp, hc, hend => by
    have hrest : ∀ x ∈ rest, x.key ≠ some Key.prev :=
      fun x hx => hnp x (by simp [hx])
    have hinp : inp.key ≠ some Key.prev := hnp inp (by simp)
    simp only [run_simulations_loop, hc]
    split_ifs with h1 h2 h3 h4
    · simp [checkNoRestart]
    · simp [checkNoRestart]
    · by_cases hv : ((c : ℤ) + 1 < (s.numSimulations : ℤ) ∧ 0 ≤ (c : ℤ) + 1)
      · have htn : ((c : ℤ) + 1).toNat = c + 1 := by omega
        simp only [switch_simulation, if_pos hv, hc, htn]
        rw [checkNoRestart_append]
        have hmem : ¬ ((c + 1) ∈ (c :: ended)) := by
          intro hm
          rcases List.mem_cons.mp hm with h | h
          · omega
          · exact absurd (hend _ h) (by omega)
        have hfront : checkNoRestart
            [Act.endSim c, Act.logSim c, Act.startSim (c + 1)] ended = true := by
          simp [checkNoRestart, hmem]
        rw [hfront]
        have hih := run_simulations_loop_no_restart rest
          { s with currentIndex := some (c + 1) } (c + 1) (c :: ended) hrest rfl
          (by
            intro j hj
            rcases List.mem_cons.mp hj with h | h
            · omega
            · exact le_trans (hend _ h) (by omega))
        simp only [endedAfter]
        simpa using hih
      · simp only [switch_simulation, if_neg hv, List.nil_append]
        exact run_simulations_loop_no_restart rest s c ended hrest hc hend
    · exact run_simulations_loop_no_restart rest s c ended hrest hc hend
    · simp [checkNoRestart]

/-- Claim C4 (amended): for every command sequence containing no Prev
command, no simulation is ever started again after it has been ended.
(With a Prev command the claim fails: see the counterexample, where the
previous, already-ended simulation is run again.) -/
theorem run_simulations_no_restart_without_prev (n : ℕ) (script : List LoopInput)
    (h : ∀ inp ∈ script, inp.key ≠ some Key.prev) :
    checkNoRestart (run_simulations n script).1 [] = true := by
  unfold run_simulations
  by_cases hn : ((0 : ℤ) < (n : ℤ) ∧ (0 : ℤ) ≤ 0)
  · have hn' : (0 : ℤ) < (n : ℤ) ∧ (0 : ℤ) ≤ (0 : ℤ) := hn
    simp only [switch_simulation, if_pos hn']
    rw [checkNoRestart_append]
    have h0 : checkNoRestart [Act.startSim ((0 : ℤ)).toNat] [] = true := by decide
    rw [h0]
    have hih := run_simulations_loop_no_restart script
      { numSimulations := n, currentIndex := some ((0 : ℤ)).toNat } ((0 : ℤ)).toNat []
      h rfl (by simp)
    simpa [endedAfter] using hih
  · simp only [switch_simulation, if_neg hn, List.nil_append]
    cases script with
    | nil => simp [run_simulations_loop, checkNoRestart]
    | cons a t => simp [run_simulations_loop, checkNoRestart]


lemma checkAtMostOneRunning_append : ∀ (a b : List Act) (rs : List ℕ),
    checkAtMostOneRunning (a ++ b) rs =
      (checkAtMostOneRunning a rs && checkAtMostOneRunning b (runningAfter a rs))
  | [], b, rs => by simp [checkAtMostOneRunning, runningAfter]
  | .startSim i :: rest, b, rs => by
    simp [checkAtMostOneRunning, runningAfter,
      checkAtMostOneRunning_append rest b (i :: rs), Bool.and_assoc]
  | .endSim i :: rest, b, rs => by
    simp [checkAtMostOneRunning, runningAfter,
      checkAtMostOneRunning_append rest b (rs.erase i)]
  | .logSim i :: rest, b, rs => by
    simp [checkAtMostOneRunning, runningAfter, checkAtMostOneRunning_append rest b rs]

lemma run_simulations_loop_at_most_one :
    ∀ (script : List LoopInput) (s : SetState) (c : ℕ) (rs : List ℕ),
      s.currentIndex = some c → (rs = [] ∨ rs = [c]) →
      checkAtMostOneRunning (run_simulations_loop s script).1 rs = true
  | [], s, c, rs, _, _ => by simp [run_simulations_loop, checkAtMostOneRunning]
  | inp :: rest, s, c, rs, hc, hrs => by
    have hers : rs.erase c = [] := by
      rcases hrs with rfl | rfl
      · rfl
      · simp
    simp only [run_simulations_loop, hc]
    split_ifs with h1 h2 h3 h4 h5
    · simp [checkAtMostOneRunning, hers]
    · simp [checkAtMostOneRunning, hers]
    · by_cases hv : ((c : ℤ) + 1 < (s.numSimulations : ℤ) ∧ 0 ≤ (c : ℤ) + 1)
      · simp only [switch_simulation, if_pos hv, hc]
        rw [checkAtMostOneRunning_append]
        have hfront : checkAtMostOneRunning
            [Act.endSim c, Act.logSim c, Act.startSim ((c : ℤ) + 1).toNat] rs = true := by
          simp [checkAtMostOneRunning, hers]
        rw [hfront]
        have hih := run_simulations_loop_at_most_one rest
          { s with currentIndex := some (((c : ℤ) + 1).toNat) } (((c : ℤ) + 1).toNat)
          [((c : ℤ) + 1).toNat] rfl (Or.inr rfl)
        simpa [runningAfter, hers] using hih
      · simp only [switch_simulation, if_neg hv, List.nil_append]
        exact run_simulations_loop_at_most_one rest s c rs hc hrs
    · by_cases hv : ((c : ℤ) - 1 < (s.numSimulations : ℤ) ∧ 0 ≤ (c : ℤ) - 1)
      · simp only [switch_simulation, if_pos hv, hc]
        rw [checkAtMostOneRunning_append]
        have hfront : checkAtMostOneRunning
            [Act.endSim c, Act.logSim c, Act.startSim ((c : ℤ) - 1).toNat] rs = true := by
          simp [checkAtMostOneRunning, hers]
        rw [hfront]
        have hih := run_simulations_loop_at_most_one rest
          { s with currentIndex := some (((c : ℤ) - 1).toNat) } (((c : ℤ) - 1).toNat)
          [((c : ℤ) - 1).toNat] rfl (Or.inr rfl)
        simpa [runningAfter, hers] using hih
      · simp only [switch_simulation, if_neg hv, List.nil_append]
        exact run_simulations_loop_at_most_one rest s c rs hc hrs
    · exact run_simulations_loop_at_most_one rest s c rs hc hrs
    · simp [checkAtMostOneRunning]

/-- Claim C5: on a valid switch away from a current run, the old run is
ended and its log record appended before the new run is started (the
action list of `switch_simulation` is exactly end, log, start, and the
index is updated); and on every trace of `run_simulations` at most one
simulation is running at every instant. -/
theorem switch_ordering_and_single_running :
    (∀ (s : SetState) (c : ℕ) (newIndex : ℤ), s.currentIndex = some c →
        0 ≤ newIndex → newIndex < (s.numSimulations : ℤ) →
        (switch_simulation s newIndex).2 =
          [.endSim c, .logSim c, .startSim newIndex.toNat] ∧
        (switch_simulation s newIndex).1.currentIndex = some newIndex.toNat) ∧
    (∀ (n : ℕ) (script : List LoopInput),
        checkAtMostOneRunning (run_simulations n script).1 [] = true) := by
  constructor
  · intro s c newIndex hc h0 hn
    simp [switch_simulation, if_pos (And.intro hn h0), hc]
  · intro n script
    unfold run_simulations
    by_cases hn : ((0 : ℤ) < (n : ℤ) ∧ (0 : ℤ) ≤ (0 : ℤ))
    · simp only [switch_simulation, if_pos hn]
      rw [checkAtMostOneRunning_append]
      have h0 : checkAtMostOneRunning [Act.startSim ((0 : ℤ)).toNat] [] = true := by decide
      rw [h0]
      have hih := run_simulations_loop_at_most_one script
        { numSimulations := n, currentIndex := some ((0 : ℤ)).toNat } ((0 : ℤ)).toNat
        [((0 : ℤ)).toNat] rfl (Or.inr rfl)
      simpa [runningAfter] using hih
    · simp only [switch_simulation, if_neg hn, List.nil_append]
      cases script with
      | nil => simp [run_simulations_loop, checkAtMostOneRunning]
      | cons a t => simp [run_simulations_loop, checkAtMostOneRunning]

/-- Counterexample to claim C4 as stated: with the command sequence
Next-then-Prev on a two-run playlist, simulation 0 is started again after
its `end_simulation` completed — the trace ends with a second
`startSim 0` after `endSim 0`, and the no-restart check fails. -/
theorem run_simulations_restart_on_prev :
    (run_simulations 2 nextPrevScript).1 =
      [.startSim 0, .endSim 0, .logSim 0, .startSim 1, .endSim 1, .logSim 1,
       .startSim 0] ∧
    checkNoRestart (run_simulations 2 nextPrevScript).1 [] = false := by
  decide

/-- Witness for the amended C4 on a Prev-free script with a Next press and
a natural process exit. -/
theorem run_simulations_no_restart_without_prev_witness :
    (∀ inp ∈ ([{ running := true, key := some Key.next },
               { running := false, key := none }] : List LoopInput),
      inp.key ≠ some Key.prev) ∧
    checkNoRestart (run_simulations 3
      [{ running := true, key := some Key.next },
       { running := false, key := none }]).1 [] = true :=
  ⟨by decide, run_simulations_no_restart_without_prev 3 _ (by decide)⟩

/-- Witness for C5: a concrete valid switch away from run 0, and the
single-running check on a concrete Next-then-Prev trace. -/
theorem switch_ordering_and_single_running_witness :
    ((switch_simulation { numSimulations := 3, currentIndex := some 0 } 1).2 =
        [.endSim 0, .logSim 0, .startSim ((1 : ℤ)).toNat] ∧
      (switch_simulation { numSimulations := 3, currentIndex := some 0 }
        1).1.currentIndex = some ((1 : ℤ)).toNat) ∧
    checkAtMostOneRunning (run_simulations 2 nextPrevScript).1 [] = true :=
  ⟨switch_ordering_and_single_running.1 _ 0 1 rfl (by decide) (by decide),
   switch_ordering_and_single_running.2 2 nextPrevScript⟩

/-- Witness for C6 at the spec's two boundary indices, `-1` and
`len(simulations)`. -/
theorem switch_simulation_out_of_range_witness :
    switch_simulation { numSimulations := 3, currentIndex := some 1 } (-1) =
      ({ numSimulations := 3, currentIndex := some 1 }, []) ∧
    switch_simulation { numSimulations := 3, currentIndex := some 1 } 3 =
      ({ numSimulations := 3, currentIndex := some 1 }, []) :=
  ⟨switch_simulation_out_of_range _ _ (Or.inl (by norm_num)),
   switch_simulation_out_of_range _ _ (Or.inr (by norm_num))⟩

lemma readTrackLines_of_enough : ∀ (n : ℕ) (l : List String), n ≤ l.length →
    readTrackLines n l = ((l.take n).map LogLine.trackLine, true)
  | 0, l, _ => by simp [readTrackLines]
  | n + 1, [], h => by simp at h
  | n + 1, x :: rest, h => by
    simp [readTrackLines, readTrackLines_of_enough n rest (by simpa using h)]

lemma readTrackLines_of_short : ∀ (n : ℕ) (l : List String), l.length < n →
    readTrackLines n l = (l.map LogLine.trackLine, false)
  | 0, l, h => by simp at h
  | _ + 1, [], _ => by simp [readTrackLines]
  | n + 1, x :: rest, h => by
    simp [readTrackLines, readTrackLines_of_short n rest (by simpa using h)]

/-- Claim C7: a finished Dynamic run with elapsed seconds `elapsed ≥ 0`
whose track file is long enough logs a record containing exactly
`⌊elapsed*10⌋` lines copied verbatim from the beginning of the track file
(between the header lines and the `End Time` line), and a Static run's
record contains no track-file lines. -/
theorem log_simulation_line_count (elapsed : ℚ) (track : List String)
    (h0 : 0 ≤ elapsed) (hlen : (⌊elapsed * 10⌋).toNat ≤ track.length) :
    (log_simulation true elapsed track =
      ([.reprLine, .startTimeLine] ++
        ((track.take (⌊elapsed * 10⌋).toNat).map LogLine.trackLine) ++
        [.endTimeLine], true)) ∧
    ((track.take (⌊elapsed * 10⌋).toNat).map LogLine.trackLine).length =
      (⌊elapsed * 10⌋).toNat ∧
    log_simulation false elapsed track =
      ([.reprLine, .startTimeLine, .endTimeLine], true) := by
  have hp : pyInt (elapsed * 10) = ⌊elapsed * 10⌋ :=
    pyInt_of_nonneg (mul_nonneg h0 (by norm_num))
  refine ⟨?_, ?_, ?_⟩
  · simp [log_simulation, hp, readTrackLines_of_enough _ _ hlen]
  · simp only [List.length_map, List.length_take]
    omega
  · simp [log_simulation]

theorem log_simulation_line_count_witness :
    (0 : ℚ) ≤ 23/10 ∧
    (⌊(23/10 : ℚ) * 10⌋).toNat ≤ (List.replicate 30 "x").length ∧
    ((log_simulation true (23/10) (List.replicate 30 "x") =
      ([.reprLine, .startTimeLine] ++
        (((List.replicate 30 "x").take (⌊(23/10 : ℚ) * 10⌋).toNat).map LogLine.trackLine) ++
        [.endTimeLine], true)) ∧
    (((List.replicate 30 "x").take (⌊(23/10 : ℚ) * 10⌋).toNat).map LogLine.trackLine).length =
      (⌊(23/10 : ℚ) * 10⌋).toNat ∧
    log_simulation false (23/10) (List.replicate 30 "x") =
      ([.reprLine, .startTimeLine, .endTimeLine], true)) :=
  ⟨by norm_num, by norm_num,
   log_simulation_line_count (23/10) (List.replicate 30 "x") (by norm_num) (by norm_num)⟩

/-- Claim C10: when the Dynamic run's track file has fewer lines than
`⌊elapsed*10⌋`, the copy loop aborts with an uncaught `StopIteration`
(completion flag `false`): the record is left truncated with the spec
line, the `Start Time` line and only the available track lines written,
and no `End Time` line. -/
theorem log_simulation_truncated_on_short_track (elapsed : ℚ) (track : List String)
    (h0 : 0 ≤ elapsed) (h : track.length < (⌊elapsed * 10⌋).toNat) :
    log_simulation true elapsed track =
      ([.reprLine, .startTimeLine] ++ track.map LogLine.trackLine, false) := by
  have hp : pyInt (elapsed * 10) = ⌊elapsed * 10⌋ :=
    pyInt_of_nonneg (mul_nonneg h0 (by norm_num))
  simp [log_simulation, hp, readTrackLines_of_short _ _ h]

theorem log_simulation_truncated_on_short_track_witness :
    (0 : ℚ) ≤ 23/10 ∧
    (List.replicate 5 "x").length < (⌊(23/10 : ℚ) * 10⌋).toNat ∧
    log_simulation true (23/10) (List.replicate 5 "x") =
      ([.reprLine, .startTimeLine] ++ (List.replicate 5 "x").map LogLine.trackLine,
       false) :=
  ⟨by norm_num, by norm_num,
   log_simulation_truncated_on_short_track (23/10) (List.replicate 5 "x")
     (by norm_num) (by norm_num)⟩

lemma end_simulation_go_blocks (polls : ℕ → Bool) :
    ∀ (fuel k : ℕ) (evs : List EndEvent),
      end_simulation_go polls fuel k = some evs →
      ∃ m, evs = shutdownBlocks polls k m ++
          [.pollExit, .recordEndTime, .releaseProc] ∧
        polls (k + 3 * m) = true ∧ ∀ i < m, polls (k + 3 * i) = false
  | 0, k, evs, h => by simp [end_simulation_go] at h
  | fuel + 1, k, evs, h => by
    by_cases hp : polls k
    · refine ⟨0, ?_, by simpa using hp, fun i hi => absurd hi (Nat.not_lt_zero i)⟩
      simp only [end_simulation_go, if_pos hp, Option.some.injEq] at h
      simp [shutdownBlocks, ← h]
    · simp only [end_simulation_go, if_neg hp] at h
      cases hrec : end_simulation_go polls fuel (k + 3) with
      | none => rw [hrec] at h; simp at h
      | some evs' =>
        rw [hrec] at h
        simp only [Option.some.injEq] at h
        obtain ⟨m, hm, hpoll, hprev⟩ :=
          end_simulation_go_blocks polls fuel (k + 3) evs' hrec
        refine ⟨m + 1, ?_, ?_, ?_⟩
        · rw [← h, hm]
          simp only [shutdownBlocks, shutdownIterationBlock]
          by_cases hq : polls (k + 1) <;> by_cases ht : polls (k + 2) <;>
            simp [hq, ht]
        · rw [show k + 3 * (m + 1) = (k + 3) + 3 * m by ring]
          exact hpoll
        · intro i hi
          cases i with
          | zero => simpa using hp
          | succ j =>
            rw [show k + 3 * (j + 1) = (k + 3) + 3 * j by ring]
            exact hprev j (by omega)

/-- Claim C8: whenever `end_simulation` terminates, its event trace is a
sequence of escalation iterations — each sending the quit signal then, if
the process is still alive, terminate, then kill, each followed by a fixed
sleep and an exit poll (`shutdownIterationBlock`) — followed by the final
exit poll, the recording of `end_time` after the loop has exited (whether
the process exited naturally, `m = 0`, or was forced), and the release of
the child handle, in that order. -/
theorem end_simulation_escalation (polls : ℕ → Bool) (fuel : ℕ)
    (evs : List EndEvent) (h : end_simulation polls fuel = some evs) :
    ∃ m, evs = shutdownBlocks polls 0 m ++
        [.pollExit, .recordEndTime, .releaseProc] ∧
      polls (3 * m) = true ∧ ∀ i < m, polls (3 * i) = false := by
  obtain ⟨m, hm, hpoll, hprev⟩ := end_simulation_go_blocks polls fuel 0 evs h
  exact ⟨m, hm, by simpa using hpoll, fun i hi => by simpa using hprev i hi⟩

theorem end_simulation_escalation_witness :
    end_simulation quitsAfterQ 2 =
      some [.pollExit, .recordEndTime, .sendQuit, .sleepSec, .pollExit, .pollExit,
            .pollExit, .recordEndTime, .releaseProc] ∧
    ∃ m, [EndEvent.pollExit, .recordEndTime, .sendQuit, .sleepSec, .pollExit,
            .pollExit, .pollExit, .recordEndTime, .releaseProc] =
        shutdownBlocks quitsAfterQ 0 m ++
          [.pollExit, .recordEndTime, .releaseProc] ∧
      quitsAfterQ (3 * m) = true ∧ ∀ i < m, quitsAfterQ (3 * i) = false :=
  ⟨by decide, end_simulation_escalation quitsAfterQ 2 _ (by decide)⟩

/-- Claim C9 (amended): for every latitude, longitude and altitude,
`lla_to_xyz` returns exactly the prime-vertical-radius ECEF formula of the
claim — `N = a/sqrt(1-e²sin²)`, `x=(N+alt)·cos·cos`, `y=(N+alt)·cos·sin`,
`z=((1-e²)N+alt)·sin` — with the degrees converted to radians by the
source's factor `3.14159265358979/180` rather than `π/180`. -/
theorem lla_to_xyz_matches_source_angle_formula (latitude longitude altitude : ℝ) :
    lla_to_xyz latitude longitude altitude =
      sourceAngleToECEF latitude longitude altitude := by
  simp only [lla_to_xyz, sourceAngleToECEF]
  rw [mul_pow]
  norm_num

/-- Counterexample to claim C9 as stated: at latitude 0, longitude 180,
altitude 0, the source's conversion differs from the claimed formula with
angles converted by `π/180`, because `cos 3.14159265358979 ≠ cos π = -1`
(`3.14159265358979` is rational while every point where the cosine is `-1`
is an odd multiple of the irrational `π`). -/
theorem lla_to_xyz_differs_from_pi_formula :
    lla_to_xyz 0 180 0 ≠ claimToECEF 0 180 0 := by
  intro h
  have h1 := congrArg Prod.fst h
  have hl : (lla_to_xyz 0 180 0).1 =
      WGS84_EARTH_RADIUS * Real.cos (3.14159265358979 : ℝ) := by
    simp only [lla_to_xyz]
    norm_num [Real.sin_zero, Real.cos_zero, Real.sqrt_one]
  have hr : (claimToECEF 0 180 0).1 = -WGS84_EARTH_RADIUS := by
    simp only [claimToECEF]
    rw [show (180 : ℝ) * (Real.pi / 180) = Real.pi by ring]
    norm_num [Real.sin_zero, Real.cos_zero, Real.sqrt_one, Real.cos_pi]
  rw [hl, hr] at h1
  have ha : (WGS84_EARTH_RADIUS : ℝ) ≠ 0 := by norm_num [WGS84_EARTH_RADIUS]
  have hcos : Real.cos (3.14159265358979 : ℝ) = -1 := by
    have h2 : WGS84_EARTH_RADIUS * Real.cos (3.14159265358979 : ℝ) =
        WGS84_EARTH_RADIUS * (-1) := by
      rw [mul_neg_one]; exact h1
    exact mul_left_cancel₀ ha h2
  obtain ⟨k, hk⟩ := Real.cos_eq_neg_one_iff.mp hcos
  have hk2 : ((2 * k + 1 : ℤ) : ℝ) * Real.pi = (3.14159265358979 : ℝ) := by
    push_cast
    linear_combination hk
  have hirr : Irrational (((2 * k + 1 : ℤ) : ℝ) * Real.pi) :=
    irrational_pi.int_mul (by omega)
  rw [hk2] at hirr
  have hrat : (3.14159265358979 : ℝ) =
      ((314159265358979 / 100000000000000 : ℚ) : ℝ) := by
    norm_num
  rw [hrat] at hirr
  exact Rat.not_irrational _ hirr
